import Mathlib

/-!
Verification of the tenant-resolution and knowledge-base response pipeline of
the restaurants-voice-assistant backend.

The Python sources under `backend/src` are shallowly embedded: Python strings
become `List Char`, JSON values become the inductive `JVal`, dictionaries
become association lists, and the handler's awaited upstream calls (embedding
provider, vector store, phone-mapping table) become explicit parameters.
Python truthiness (`if x:`) is modelled by explicit `*Truthy` functions.
-/

namespace VoiceAssistant

/-- Python strings are modelled as lists of characters. -/
abbrev Str := List Char

/-- Embed a Lean string literal into the model's string type. -/
def str (s : String) : Str := s.data

/-- Python truthiness of an optional string: `None` and `""` are falsy. -/
def sTruthy : Option Str → Bool
  | none => false
  | some s => !s.isEmpty

/-- Python `x or y` on optional strings: yields `y` whenever `x` is falsy. -/
def pyOr (a b : Option Str) : Option Str :=
  if sTruthy a then a else b

/-- JSON values as they appear in webhook bodies and document metadata. -/
inductive JVal where
  | null
  | bool (b : Bool)
  | num (n : Int)
  | str (s : Str)
  | arr (xs : List JVal)
  | obj (fields : List (Str × JVal))

mutual

/-- Decidable equality on JSON values (structural, so `decide` can run it). -/
def JVal.decEq : (a b : JVal) → Decidable (a = b)
  | .null, .null => isTrue rfl
  | .bool a, .bool b =>
    if h : a = b then isTrue (by rw [h]) else isFalse (by intro he; cases he; exact h rfl)
  | .num a, .num b =>
    if h : a = b then isTrue (by rw [h]) else isFalse (by intro he; cases he; exact h rfl)
  | .str a, .str b =>
    if h : a = b then isTrue (by rw [h]) else isFalse (by intro he; cases he; exact h rfl)
  | .arr xs, .arr ys =>
    match JVal.decEqList xs ys with
    | isTrue h => isTrue (by rw [h])
    | isFalse h => isFalse (by intro he; cases he; exact h rfl)
  | .obj xs, .obj ys =>
    match JVal.decEqFields xs ys with
    | isTrue h => isTrue (by rw [h])
    | isFalse h => isFalse (by intro he; cases he; exact h rfl)
  | .null, .bool _ | .null, .num _ | .null, .str _ | .null, .arr _ | .null, .obj _
  | .bool _, .null | .bool _, .num _ | .bool _, .str _ | .bool _, .arr _ | .bool _, .obj _
  | .num _, .null | .num _, .bool _ | .num _, .str _ | .num _, .arr _ | .num _, .obj _
  | .str _, .null | .str _, .bool _ | .str _, .num _ | .str _, .arr _ | .str _, .obj _
  | .arr _, .null | .arr _, .bool _ | .arr _, .num _ | .arr _, .str _ | .arr _, .obj _
  | .obj _, .null | .obj _, .bool _ | .obj _, .num _ | .obj _, .str _ | .obj _, .arr _ =>
    isFalse (by intro h; cases h)

def JVal.decEqList : (xs ys : List JVal) → Decidable (xs = ys)
  | [], [] => isTrue rfl
  | x :: xs, y :: ys =>
    match JVal.decEq x y, JVal.decEqList xs ys with
    | isTrue h1, isTrue h2 => isTrue (by rw [h1, h2])
    | isFalse h1, _ => isFalse (by intro he; cases he; exact h1 rfl)
    | _, isFalse h2 => isFalse (by intro he; cases he; exact h2 rfl)
  | [], _ :: _ => isFalse (by intro h; cases h)
  | _ :: _, [] => isFalse (by intro h; cases h)

def JVal.decEqFields : (xs ys : List (Str × JVal)) → Decidable (xs = ys)
  | [], [] => isTrue rfl
  | (k, v) :: xs, (k', v') :: ys =>
    if h0 : k = k' then
      match JVal.decEq v v', JVal.decEqFields xs ys with
      | isTrue h1, isTrue h2 => isTrue (by rw [h0, h1, h2])
      | isFalse h1, _ => isFalse (by intro he; cases he; exact h1 rfl)
      | _, isFalse h2 => isFalse (by intro he; cases he; exact h2 rfl)
    else isFalse (by intro he; cases he; exact h0 rfl)
  | [], _ :: _ => isFalse (by intro h; cases h)
  | _ :: _, [] => isFalse (by intro h; cases h)

end

instance : DecidableEq JVal := JVal.decEq

/-- Python truthiness of a JSON value. -/
def jTruthy : JVal → Bool
  | .null => false
  | .bool b => b
  | .num n => n != 0
  | .str s => !s.isEmpty
  | .arr xs => !xs.isEmpty
  | .obj fs => !fs.isEmpty

/-- Python truthiness of an optional JSON value (`None` is falsy). -/
def jOTruthy : Option JVal → Bool
  | none => false
  | some v => jTruthy v

/-- Python `x or y` on JSON values. -/
def jOr (a b : JVal) : JVal :=
  if jTruthy a then a else b

/-- `d[k]` lookup in a JSON object; `none` models a missing key. -/
def dictGet (d : List (Str × JVal)) (k : Str) : Option JVal :=
  (d.find? (fun kv => kv.1 == k)).map (fun kv => kv.2)

/-- Python `d.get(k)`: a missing key yields `None` (modelled as `.null`). -/
def jGetD (d : List (Str × JVal)) (k : Str) : JVal :=
  (dictGet d k).getD .null

/-- Python `str.strip()`: drop leading and trailing whitespace. -/
def pyStrip (s : Str) : Str :=
  ((s.dropWhile Char.isWhitespace).reverse.dropWhile Char.isWhitespace).reverse

/-- The first segment of Python `s.split(sep)` for a non-empty separator:
everything before the first occurrence of `sep` (the code only ever uses
`parts[0]`). -/
def firstSegment (sep : Str) : Str → Str
  | [] => []
  | c :: rest =>
    if List.isPrefixOf sep (c :: rest) then []
    else c :: firstSegment sep rest

/-! ### `services/vapi_response.py` -/

/-- A search-result document as built by `search_knowledge_base`:
`{"content": ..., "metadata": ..., "score": ...}`.  A JSON-null metadata
column is modelled as `none` (the code guards it with `doc.get("metadata")
or {}`); a non-object metadata value would raise in Python and is outside
the verified claims. -/
structure Doc where
  content : Str
  metadata : Option (List (Str × JVal))
  score : JVal
  deriving DecidableEq

/-- One entry of the `results` array of a Vapi tool response. -/
structure ToolResult where
  toolCallId : Str
  result : Str
  items : Option (List (List (Str × JVal)))
  deriving DecidableEq

/-- The tool-response envelope `{"results": [...]}`. -/
structure VapiResponse where
  results : List ToolResult
  deriving DecidableEq

/-- `build_tool_result_with_items` from `services/vapi_response.py`. -/
def build_tool_result_with_items (tool_call_id text : Str)
    (items : List (List (Str × JVal))) : VapiResponse :=
  ⟨[⟨tool_call_id, text, some items⟩]⟩

/-- `build_no_result` from `services/vapi_response.py`: the message is the
custom `message` when truthy, otherwise a canned sentence selected by
comparing `category` against the four known categories. -/
def build_no_result (tool_call_id : Str) (category : Option Str)
    (message : Option Str) : VapiResponse :=
  let default_message :=
    if sTruthy message then message.getD []
    else if category == some (str "menu") then
      str "I don't have information about that menu item."
    else if category == some (str "modifiers") then
      str "I don't have information about those options."
    else if category == some (str "hours") then
      str "I don't have operating hours information available right now."
    else if category == some (str "zones") then
      str "I don't have delivery zone information available right now."
    else str "I don't have information about that."
  ⟨[⟨tool_call_id, default_message, none⟩]⟩

/-- `extract_name_from_document` from `services/vapi_response.py`:
`metadata.get("name") or metadata.get("title")`, falling back to the
stripped first " - "-segment of the content when that is falsy. -/
def extract_name_from_document (doc : Doc) : JVal :=
  let metadata := doc.metadata.getD []
  let name := jOr (jGetD metadata (str "name")) (jGetD metadata (str "title"))
  if jTruthy name then name
  else .str (pyStrip (firstSegment (str " - ") doc.content))

/-- The per-category item dictionary built for one document inside the
`for doc in results[:3]` loop of `build_structured_items`. -/
def structured_item (category : Option Str) (doc : Doc) : List (Str × JVal) :=
  let metadata := doc.metadata.getD []
  let name := extract_name_from_document doc
  let score := doc.score
  if category == some (str "menu") then
    [(str "type", .str (str "menu_item")),
     (str "name", name),
     (str "price", jGetD metadata (str "price")),
     (str "description", jGetD metadata (str "description")),
     (str "score", score)]
  else if category == some (str "modifiers") then
    [(str "type", .str (str "modifier")),
     (str "name", name),
     (str "price_delta", jOr (jGetD metadata (str "price")) (jGetD metadata (str "price_delta"))),
     (str "required", jGetD metadata (str "required")),
     (str "score", score)]
  else if category == some (str "hours") then
    [(str "type", .str (str "hours")),
     (str "day_of_week", jGetD metadata (str "day_of_week")),
     (str "open_time", jGetD metadata (str "open_time")),
     (str "close_time", jGetD metadata (str "close_time")),
     (str "is_closed", jGetD metadata (str "is_closed")),
     (str "score", score)]
  else if category == some (str "zones") then
    [(str "type", .str (str "zone")),
     (str "zone_name", jOr (jGetD metadata (str "name")) (jGetD metadata (str "zone_name"))),
     (str "delivery_fee", jOr (jGetD metadata (str "fee")) (jGetD metadata (str "delivery_fee"))),
     (str "score", score)]
  else
    [(str "type", jOr (jGetD metadata (str "category")) (jOr (jGetD metadata (str "type")) (.str (str "unknown")))),
     (str "name", name),
     (str "score", score)]

/-- `build_structured_items` from `services/vapi_response.py`. -/
def build_structured_items (results : List Doc) (category : Option Str) :
    List (List (Str × JVal)) :=
  (results.take 3).map (structured_item category)

/-! ### `services/cache.py`

The cache is a `cachetools.TTLCache(maxsize=1000, ttl=settings.cache_ttl_seconds)`.
An entry is modelled as key ↦ (stored results, expiry time), where the expiry
time is the insertion time plus the TTL and is never refreshed by reads.  The
max-size LRU eviction is not exercised by any verified claim and is not
modelled. -/

abbrev Cache := List (Str × (List Doc × Nat))

/-- `get_cache_key`: the f-string `f"{restaurant_id}:{category_str}:{query}"`
with `category_str = category or "all"`. -/
def get_cache_key (restaurant_id query : Str) (category : Option Str) : Str :=
  let category_str := match category with
    | some c => if c.isEmpty then str "all" else c
    | none => str "all"
  restaurant_id ++ [':'] ++ category_str ++ [':'] ++ query

/-- `get_cached_result`: `_cache.get(key)`, where a TTL-expired entry reads
as absent. -/
def get_cached_result (cache : Cache) (now : Nat) (restaurant_id query : Str)
    (category : Option Str) : Option (List Doc) :=
  let key := get_cache_key restaurant_id query category
  match cache.find? (fun kv => kv.1 == key) with
  | some kv => if now < kv.2.2 then some kv.2.1 else none
  | none => none

/-- `set_cached_result`: `_cache[key] = results`, stamping the entry with
expiry `now + ttl`. -/
def set_cached_result (cache : Cache) (now ttl : Nat) (restaurant_id query : Str)
    (results : List Doc) (category : Option Str) : Cache :=
  let key := get_cache_key restaurant_id query category
  (key, (results, now + ttl)) :: cache.filter (fun kv => kv.1 != key)

/-- Python's substring test `needle in haystack` on strings. -/
def py_in (needle : Str) : Str → Bool
  | [] => List.isPrefixOf needle []
  | c :: rest => List.isPrefixOf needle (c :: rest) || py_in needle rest

/-- The deletion test of `clear_cache`: key starts with `f"{restaurant_id}:"`
and, when a category is given, contains `f":{category}:"` as a substring. -/
def should_delete (restaurant_id : Str) (category : Option Str) (key : Str) : Bool :=
  List.isPrefixOf (restaurant_id ++ [':']) key &&
    (match category with
     | none => true
     | some c => py_in ([':'] ++ c ++ [':']) key)

/-- `clear_cache` from `services/cache.py`. -/
def clear_cache (cache : Cache) (restaurant_id : Str) (category : Option Str) : Cache :=
  cache.filter (fun kv => !should_delete restaurant_id category kv.1)

/-! ### `services/phone_mapping.py`

The `restaurant_phone_mappings` table is modelled as an association list
phone-number ↦ restaurant id; the `.eq("phone_number", ...).limit(1)` query
becomes a `find?`. -/

/-- The normalization of `phone_mapping.py`: strip spaces, parentheses and
hyphens (`replace(" ", "").replace("(", "").replace(")", "").replace("-", "")`). -/
def clean_phone (s : Str) : Str :=
  s.filter (fun c => !(c == ' ' || c == '(' || c == ')' || c == '-'))

/-- `get_restaurant_id_from_phone`: `None` for a falsy phone string, else a
table lookup on the cleaned number. -/
def get_restaurant_id_from_phone (table : List (Str × Str)) (phone_number : Str) :
    Option Str :=
  if phone_number.isEmpty then none
  else (table.find? (fun kv => kv.1 == clean_phone phone_number)).map (fun kv => kv.2)

/-- `create_phone_mapping`: upsert of (cleaned number ↦ restaurant id);
returns the table unchanged when either argument is falsy. -/
def create_phone_mapping (table : List (Str × Str)) (phone_number restaurant_id : Str) :
    List (Str × Str) :=
  if phone_number.isEmpty || restaurant_id.isEmpty then table
  else (clean_phone phone_number, restaurant_id) ::
    table.filter (fun kv => kv.1 != clean_phone phone_number)

/-! ### `services/vector_search.py`

The two awaited collaborators — the embedding provider and the
`search_documents` RPC of the knowledge store — are passed in as a
`SearchEnv`.  The returned `embed_calls`/`store_calls` counters instrument
how often each collaborator was invoked during the call. -/

/-- A raw row of the `search_documents` RPC response. -/
structure Row where
  content : Str
  metadata : Option (List (Str × JVal))
  similarity : JVal
  deriving DecidableEq

/-- The external collaborators of `search_knowledge_base`: the embedding
provider and the tenant-scoped vector store, called with
(embedding, restaurant id, optional category, match count). -/
structure SearchEnv where
  embed : Str → List Int
  store : List Int → Str → Option Str → Nat → List Row

/-- The mutable state threaded through a search: the TTL cache and the
current time in seconds. -/
structure SearchState where
  cache : Cache
  now : Nat
  deriving DecidableEq

/-- Result of one `search_knowledge_base` call, with collaborator-call
counters. -/
structure SearchOut where
  results : List Doc
  state : SearchState
  embed_calls : Nat
  store_calls : Nat

/-- The row-to-document reshaping inside `search_knowledge_base`:
`{"content": doc["content"], "metadata": doc["metadata"], "score": doc["similarity"]}`. -/
def row_to_doc (r : Row) : Doc := ⟨r.content, r.metadata, r.similarity⟩

/-- `search_knowledge_base` from `services/vector_search.py`: return the
cached result on a hit; otherwise embed the query, call the store (the
`query_category` RPC parameter is set only for a truthy category), reshape
the rows, and cache them. -/
def search_knowledge_base (env : SearchEnv) (ttl : Nat) (query restaurant_id : Str)
    (category : Option Str) (limit : Nat) (st : SearchState) : SearchOut :=
  match get_cached_result st.cache st.now restaurant_id query category with
  | some cached => ⟨cached, st, 0, 0⟩
  | none =>
    let query_embedding := env.embed query
    let query_category := if sTruthy category then category else none
    let rows := env.store query_embedding restaurant_id query_category limit
    let results := rows.map row_to_doc
    let cache' := set_cached_result st.cache st.now ttl restaurant_id query results category
    ⟨results, ⟨cache', st.now⟩, 1, 1⟩

/-! ### `models/vapi.py` — the flexible request model -/

/-- `FunctionCallParams`. -/
structure FunctionCallParams where
  query : Option Str

/-- `FunctionCall`. -/
structure FunctionCall where
  parameters : Option FunctionCallParams

/-- The `arguments` field of a tool call: a JSON object or a JSON-encoded
string (pydantic leaves the `Any`-typed field as parsed).  The dead
`hasattr(arguments, "query")` branch of `extract_query` can only fire for a
`FunctionArgs` instance, which `parse_raw` never produces for an `Any`
field, so it is not modelled. -/
inductive ToolArgs where
  | dict (d : List (Str × JVal))
  | jsonStr (s : Str)

/-- Python truthiness of a `ToolArgs` value. -/
def argsTruthy : ToolArgs → Bool
  | .dict d => !d.isEmpty
  | .jsonStr s => !s.isEmpty

/-- `ToolCallFunction`. -/
structure ToolCallFunction where
  name : Option Str
  arguments : Option ToolArgs

/-- `ToolCall`. -/
structure ToolCall where
  id : Option Str
  type : Option Str
  function : Option ToolCallFunction

/-- `VapiMessage` (the `timestamp` and `type` fields are never read by the
pipeline and are omitted). -/
structure VapiMessage where
  functionCall : Option FunctionCall
  toolCalls : Option (List ToolCall)

/-- `VapiRequest`: the flexible webhook body model. -/
structure VapiRequest where
  query : Option Str
  message : Option VapiMessage
  messages : Option (List (List (Str × JVal)))
  metadata : Option (List (Str × JVal))

/-- The `for tool_call in self.message.toolCalls` loop of `extract_query`:
`some r` means the loop returned `r` (where `r = none` models Python
returning `None`), `none` means the loop fell through.  `json.loads` is the
external JSON decoder, passed in as `jsonParse`; a failed parse or a
non-object parse falls through to the next tool call. -/
def toolCallsScan (jsonParse : Str → Option JVal) : List ToolCall → Option (Option JVal)
  | [] => none
  | tc :: rest =>
    match tc.function with
    | some f =>
      match f.arguments with
      | some args =>
        if argsTruthy args then
          match args with
          | .dict d => some (dictGet d (str "query"))
          | .jsonStr s =>
            match jsonParse s with
            | some (.obj d) => some (dictGet d (str "query"))
            | _ => toolCallsScan jsonParse rest
        else toolCallsScan jsonParse rest
      | none => toolCallsScan jsonParse rest
    | none => toolCallsScan jsonParse rest

/-- The trailing `if self.messages:` block of `extract_query`: the value of
the "content" key of the last message that has one. -/
def messagesScan (msgs : List (List (Str × JVal))) : Option JVal :=
  match msgs.reverse.find? (fun m => (dictGet m (str "content")).isSome) with
  | some m => dictGet m (str "content")
  | none => none

/-- `VapiRequest.extract_query`: top-level `query` if truthy, else the
function-call parameters (returned unconditionally once `parameters` is
present), else the tool-calls scan, else the messages scan. -/
def extract_query (jsonParse : Str → Option JVal) (req : VapiRequest) : Option JVal :=
  if sTruthy req.query then some (.str (req.query.getD []))
  else
    let fromParams : Option (Option JVal) :=
      match req.message with
      | some msg =>
        match msg.functionCall with
        | some fc =>
          match fc.parameters with
          | some ps => some (ps.query.map .str)
          | none => none
        | none => none
      | none => none
    match fromParams with
    | some r => r
    | none =>
      let fromToolCalls : Option (Option JVal) :=
        match req.message with
        | some msg =>
          match msg.toolCalls with
          | some tcs => if tcs.isEmpty then none else toolCallsScan jsonParse tcs
          | none => none
        | none => none
      match fromToolCalls with
      | some r => r
      | none =>
        match req.messages with
        | some msgs => if msgs.isEmpty then none else messagesScan msgs
        | none => none

/-- `VapiRequest.extract_tool_call_id`: the first truthy tool-call id. -/
def extract_tool_call_id (req : VapiRequest) : Option Str :=
  match req.message with
  | some msg =>
    match msg.toolCalls with
    | some tcs => (tcs.find? (fun tc => sTruthy tc.id)).bind (fun tc => tc.id)
    | none => none
  | none => none

/-- `VapiRequest.extract_tool_name`: the first truthy tool-call function
name. -/
def extract_tool_name (req : VapiRequest) : Option Str :=
  match req.message with
  | some msg =>
    match msg.toolCalls with
    | some tcs =>
      (tcs.find? (fun tc =>
        match tc.function with
        | some f => sTruthy f.name
        | none => false)).bind (fun tc => tc.function.bind (fun f => f.name))
    | none => none
  | none => none

/-- `VapiRequest.extract_restaurant_id`: `self.metadata.get("restaurant_id")`
for a truthy metadata dict. -/
def extract_metadata_restaurant_id (req : VapiRequest) : Option JVal :=
  match req.metadata with
  | some m => if m.isEmpty then none else dictGet m (str "restaurant_id")
  | none => none

/-! ### `api/vapi.py` — the knowledge-base endpoint -/

/-- `TOOL_CATEGORY_MAP`. -/
def TOOL_CATEGORY_MAP : List (Str × Str) :=
  [(str "get_menu_info", str "menu"),
   (str "get_modifiers_info", str "modifiers"),
   (str "get_hours_info", str "hours"),
   (str "get_zones_info", str "zones")]

/-- `_map_tool_to_category`: `None` for a falsy name, else the fixed lookup
table (unknown names map to `None`). -/
def map_tool_to_category (tool_name : Option Str) : Option Str :=
  match tool_name with
  | none => none
  | some t =>
    if t.isEmpty then none
    else (TOOL_CATEGORY_MAP.find? (fun kv => kv.1 == t)).map (fun kv => kv.2)

/-- `_extract_restaurant_id(None, vapi_request)` as called on line 225 of
`api/vapi.py`: the metadata restaurant id, stripped when truthy.  A truthy
non-string metadata value would raise `AttributeError` in Python (surfacing
as a 500) and is outside every verified claim. -/
def extract_restaurant_id_helper (req : VapiRequest) : Option Str :=
  match extract_metadata_restaurant_id req with
  | some v =>
    if jTruthy v then
      match v with
      | .str s => some (pyStrip s)
      | _ => none
    else none
  | none => none

/-- The `isinstance(phone_value, str) / isinstance(phone_value, dict)`
dispatch shared by both phone probes: `some v` models an assignment to the
`phone_number` variable, `none` models leaving it unchanged. -/
def phone_from_value (pv : JVal) : Option JVal :=
  match pv with
  | .str s => some (.str s)
  | .obj o => some (jOr (jGetD o (str "number")) (jGetD o (str "phoneNumber")))
  | _ => none

/-- The final value of the `phone_number` variable in the phone-extraction
block of `vapi_knowledge_base` (lines 231–253): probe
`message.phoneNumber`/`message.phone_number`, then — if the result is still
falsy — `message.call.phoneNumber`/`message.call.phone_number`. -/
def extract_phone_variable (body : List (Str × JVal)) : Option JVal :=
  let message_obj := (dictGet body (str "message")).getD (.obj [])
  match message_obj with
  | .obj msg =>
    let p1 := phone_from_value (jOr (jGetD msg (str "phoneNumber")) (jGetD msg (str "phone_number")))
    if (p1.map jTruthy).getD false then p1
    else
      match jGetD msg (str "call") with
      | .obj call_obj =>
        match phone_from_value (jOr (jGetD call_obj (str "phoneNumber")) (jGetD call_obj (str "phone_number"))) with
        | some v => some v
        | none => p1
      | _ => p1
  | _ => none

/-- The guard `if phone_number and isinstance(phone_number, str)` applied to
the extracted phone variable. -/
def extract_phone_number (body : List (Str × JVal)) : Option Str :=
  match extract_phone_variable body with
  | some (.str s) => if s.isEmpty then none else some s
  | _ => none

/-- The tenant-resolution block of `vapi_knowledge_base` (lines 223–269):
`x_restaurant_id or query_params["restaurant_id"] or
_extract_restaurant_id(None, vapi_request)`, falling back to the
phone-number lookup, with a falsy final value rejected (`None`). -/
def resolve_restaurant_id (x_restaurant_id query_param : Option Str)
    (req : VapiRequest) (body : List (Str × JVal))
    (phone_table : List (Str × Str)) : Option Str :=
  let rid1 := pyOr x_restaurant_id (pyOr query_param (extract_restaurant_id_helper req))
  let rid2 :=
    if sTruthy rid1 then rid1
    else
      match extract_phone_number body with
      | some p => get_restaurant_id_from_phone phone_table p
      | none => rid1
  if sTruthy rid2 then rid2 else none

/-- Python `str()` of the extracted query value, used only where the query
is interpolated into the cache key.  Containers are given an opaque
rendering: no verified claim stringifies a non-scalar query. -/
def pyStr : JVal → Str
  | .str s => s
  | .null => str "None"
  | .bool true => str "True"
  | .bool false => str "False"
  | .num n => (toString n).data
  | .arr _ => str "<list>"
  | .obj _ => str "<dict>"

/-- The outcome of one `vapi_knowledge_base` call: an HTTP-success tool
response or an `HTTPException`. -/
inductive HandlerOutcome where
  | success (resp : VapiResponse)
  | clientError (status : Nat) (detail : Str)
  deriving DecidableEq

/-- One handler invocation together with the cache state it leaves behind
and the collaborator-call counters. -/
structure HandlerOut where
  outcome : HandlerOutcome
  state : SearchState
  embed_calls : Nat
  store_calls : Nat

/-- The string literal passed (positionally!) to `build_no_result` in the
timeout branch of `vapi_knowledge_base`. -/
def degraded_message : Str :=
  str "I'm experiencing a delay retrieving that information. Please try again in a moment."

/-- `vapi_knowledge_base` from `api/vapi.py`, entered after authentication
and body parsing succeed.  `search_seconds` is the wall-clock duration of
the combined embedding+search stage: `asyncio.wait_for(..., timeout=15.0)`
raises `TimeoutError` when it exceeds 15 seconds, in which case the cancelled
in-flight search leaves the cache untouched and `build_no_result` is called
with the degraded message as its second POSITIONAL argument — which is the
`category` parameter, not `message`. -/
def vapi_knowledge_base (env : SearchEnv) (ttl : Nat) (jsonParse : Str → Option JVal)
    (x_restaurant_id query_param : Option Str)
    (req : VapiRequest) (body : List (Str × JVal))
    (phone_table : List (Str × Str))
    (search_seconds : Nat)
    (st : SearchState) : HandlerOut :=
  let query_text := extract_query jsonParse req
  let tool_call_id := extract_tool_call_id req
  let tool_name := extract_tool_name req
  if !jOTruthy query_text then
    ⟨.clientError 422 (str "Missing query parameter"), st, 0, 0⟩
  else if !sTruthy tool_call_id then
    ⟨.clientError 422 (str "Missing toolCallId"), st, 0, 0⟩
  else
    match resolve_restaurant_id x_restaurant_id query_param req body phone_table with
    | none =>
      ⟨.clientError 422 (str "restaurant_id is required. Provide via X-Restaurant-Id header, query param, metadata.restaurant_id, or ensure phone number is in call metadata."), st, 0, 0⟩
    | some restaurant_id =>
      let category := map_tool_to_category tool_name
      let tcid := tool_call_id.getD []
      if 15 < search_seconds then
        ⟨.success (build_no_result tcid (some degraded_message) none), st, 0, 0⟩
      else
        let out := search_knowledge_base env ttl (pyStr ((query_text).getD .null))
          restaurant_id category 5 st
        if out.results.isEmpty then
          ⟨.success (build_no_result tcid category none), out.state, out.embed_calls, out.store_calls⟩
        else
          let response_text :=
            List.intercalate (str "\n\n") ((out.results.take 3).map (fun d => d.content))
          let items := build_structured_items out.results category
          ⟨.success (build_tool_result_with_items tcid response_text items), out.state, out.embed_calls, out.store_calls⟩

/-! ### `config.py` -/

/-- The configurable settings that the pipeline reads, with the defaults of
`config.py`. -/
structure Settings where
  cache_ttl_seconds : Nat := 60
  environment : Str := str "development"

/-! ### Spec-side definitions

These definitions follow the wording of the specification, to be compared
with the code-side definitions above. -/

/-- Modelled from the spec's resolver contract, read literally: "among the
three identity signals the first non-empty one wins in the order: explicit
tenant-id header, metadata tenant id, phone-number lookup". -/
def resolve_spec_three (header metadata_rid phone_rid : Option Str) : Option Str :=
  if sTruthy header then header
  else if sTruthy metadata_rid then metadata_rid
  else if sTruthy phone_rid then phone_rid
  else none

/-- The first truthy element of a list of optional strings (`none` when all
are falsy) — the shape of a Python `a or b or ...` chain whose falsy final
value is rejected. -/
def pick_first_truthy : List (Option Str) → Option Str
  | [] => none
  | o :: rest => if sTruthy o then o else pick_first_truthy rest

/-- The phone channel of tenant resolution as a single signal: the mapping
lookup on the phone number extracted from the raw body, `none` when no
phone number is found. -/
def phone_signal (body : List (Str × JVal)) (table : List (Str × Str)) : Option Str :=
  match extract_phone_number body with
  | some p => get_restaurant_id_from_phone table p
  | none => none

/-- Modelled from the claim's name-extraction rule, read literally: "name is
metadata.name, else metadata.title, else the first \" - \"-separated segment
of the content" — a present metadata name is used as-is (even when empty)
and the content segment is not stripped. -/
def claim_name (doc : Doc) : JVal :=
  match dictGet (doc.metadata.getD []) (str "name") with
  | some v => v
  | none =>
    match dictGet (doc.metadata.getD []) (str "title") with
    | some v => v
    | none => .str (firstSegment (str " - ") doc.content)

/-- The amended name-extraction rule: a falsy (absent or empty) metadata
name falls through to the title, a falsy title falls through to the first
" - "-segment of the content stripped of surrounding whitespace. -/
def claim_name_amended (doc : Doc) : JVal :=
  let m := doc.metadata.getD []
  let n := jGetD m (str "name")
  if jTruthy n then n
  else
    let t := jGetD m (str "title")
    if jTruthy t then t
    else .str (pyStrip (firstSegment (str " - ") doc.content))

/-- The fixed per-category field projection of the claim (menu, modifiers,
hours, zones, default), with the amended name rule.  Field values whose
metadata source keys the claim does not pin down (price_delta, zone_name,
delivery_fee, type) follow the code's `or`-chains. -/
def claim_item (category : Option Str) (doc : Doc) : List (Str × JVal) :=
  let metadata := doc.metadata.getD []
  let name := claim_name_amended doc
  let score := doc.score
  if category == some (str "menu") then
    [(str "type", .str (str "menu_item")),
     (str "name", name),
     (str "price", jGetD metadata (str "price")),
     (str "description", jGetD metadata (str "description")),
     (str "score", score)]
  else if category == some (str "modifiers") then
    [(str "type", .str (str "modifier")),
     (str "name", name),
     (str "price_delta", jOr (jGetD metadata (str "price")) (jGetD metadata (str "price_delta"))),
     (str "required", jGetD metadata (str "required")),
     (str "score", score)]
  else if category == some (str "hours") then
    [(str "type", .str (str "hours")),
     (str "day_of_week", jGetD metadata (str "day_of_week")),
     (str "open_time", jGetD metadata (str "open_time")),
     (str "close_time", jGetD metadata (str "close_time")),
     (str "is_closed", jGetD metadata (str "is_closed")),
     (str "score", score)]
  else if category == some (str "zones") then
    [(str "type", .str (str "zone")),
     (str "zone_name", jOr (jGetD metadata (str "name")) (jGetD metadata (str "zone_name"))),
     (str "delivery_fee", jOr (jGetD metadata (str "fee")) (jGetD metadata (str "delivery_fee"))),
     (str "score", score)]
  else
    [(str "type", jOr (jGetD metadata (str "category")) (jOr (jGetD metadata (str "type")) (.str (str "unknown")))),
     (str "name", name),
     (str "score", score)]

/-- The canned no-result sentence per category (spec §4.4 defaults). -/
def default_no_result_message (category : Option Str) : Str :=
  if category == some (str "menu") then
    str "I don't have information about that menu item."
  else if category == some (str "modifiers") then
    str "I don't have information about those options."
  else if category == some (str "hours") then
    str "I don't have operating hours information available right now."
  else if category == some (str "zones") then
    str "I don't have delivery zone information available right now."
  else str "I don't have information about that."

/-! ### Concrete instances used by counterexamples and witnesses -/

/-- An environment whose store finds nothing. -/
def env0 : SearchEnv := ⟨fun _ => [], fun _ _ _ _ => []⟩

/-- An environment whose store returns one menu document. -/
def env1 : SearchEnv :=
  ⟨fun _ => [1],
   fun _ _ _ _ => [⟨str "Margherita - tomato, mozzarella",
     some [(str "name", .str (str "Margherita"))], .num 1⟩]⟩

/-- A JSON decoder stub (never consulted by the instances below). -/
def parse0 : Str → Option JVal := fun _ => none

/-- A well-formed menu tool-call request with toolCallId "tc1". -/
def req1 : VapiRequest :=
  ⟨some (str "vegan pizza"),
   some ⟨none, some [⟨some (str "tc1"), none, some ⟨some (str "get_menu_info"), none⟩⟩]⟩,
   none, none⟩

/-- A request with no query anywhere. -/
def req_noquery : VapiRequest := ⟨none, none, none, none⟩

/-- A request with a query but no tool calls (hence no toolCallId). -/
def req_noid : VapiRequest := ⟨some (str "hello"), none, none, none⟩

/-- A request carrying a metadata restaurant id "M". -/
def req_meta : VapiRequest :=
  ⟨some (str "q"), none, none, some [(str "restaurant_id", .str (str "M"))]⟩

/-- A zones tool-call request with toolCallId "tc9". -/
def req_zones : VapiRequest :=
  ⟨some (str "what's your delivery area"),
   some ⟨none, some [⟨some (str "tc9"), none, some ⟨some (str "get_zones_info"), none⟩⟩]⟩,
   none, none⟩

/-- A cached menu document of tenant "t". -/
def docA : Doc :=
  ⟨str "Margherita - tomato, mozzarella", some [(str "name", .str (str "Margherita"))], .num 1⟩

/-- A document whose metadata name is present but empty and whose content
has a leading space before the first " - " segment. -/
def doc_c8 : Doc := ⟨str " a - b", some [(str "name", .str [])], .num 1⟩

/-! ### Helper lemmas -/

/-- Python's `in` on strings decides list-infix. -/
theorem py_in_iff_infix (needle hay : Str) : py_in needle hay = true ↔ needle <:+: hay := by
  induction hay with
  | nil =>
    simp [py_in, List.isPrefixOf_iff_prefix]
  | cons c rest ih =>
    simp [py_in, List.isPrefixOf_iff_prefix, List.infix_cons_iff, ih]

/-- The phone normalization is idempotent. -/
theorem clean_phone_idem (p : Str) : clean_phone (clean_phone p) = clean_phone p := by
  simp only [clean_phone, List.filter_filter]
  congr 1
  funext c
  exact Bool.and_self _

/-- For a fixed category and query, the cache key determines the tenant. -/
theorem get_cache_key_inj_left (a b q : Str) (c : Option Str)
    (h : get_cache_key a q c = get_cache_key b q c) : a = b := by
  simp only [get_cache_key] at h
  have h1 := List.append_cancel_right h
  have h2 := List.append_cancel_right h1
  have h3 := List.append_cancel_right h2
  exact List.append_cancel_right h3

/-- The code's name extraction coincides with the amended claim rule. -/
theorem extract_name_eq_claim_name_amended (doc : Doc) :
    extract_name_from_document doc = claim_name_amended doc := by
  simp only [extract_name_from_document, claim_name_amended, jOr]
  by_cases h : jTruthy (jGetD (doc.metadata.getD []) (str "name")) <;> simp [h]

/-- The code's per-category projection coincides with the claim-side one. -/
theorem structured_item_eq_claim_item (c : Option Str) (doc : Doc) :
    structured_item c doc = claim_item c doc := by
  simp only [structured_item, claim_item, extract_name_eq_claim_name_amended]

/-- `build_no_result` without a custom message produces the canned
per-category sentence. -/
theorem build_no_result_default (tc : Str) (c : Option Str) :
    build_no_result tc c none = ⟨[⟨tc, default_no_result_message c, none⟩]⟩ := rfl

/-- The deletion test with no category decides the tenant-prefix relation. -/
theorem should_delete_none_iff (rid k : Str) :
    should_delete rid none k = true ↔ (rid ++ [':']) <+: k := by
  simp [should_delete, List.isPrefixOf_iff_prefix]

/-- The deletion test with a category decides prefix-and-infix. -/
theorem should_delete_some_iff (rid c k : Str) :
    should_delete rid (some c) k = true ↔
      ((rid ++ [':']) <+: k ∧ ([':'] ++ c ++ [':']) <:+: k) := by
  simp [should_delete, List.isPrefixOf_iff_prefix, py_in_iff_infix]

/-- The resolution block equals "first truthy of the four channels": header,
URL query parameter, metadata id, phone lookup. -/
theorem resolve_eq_pick (h qp : Option Str) (req : VapiRequest)
    (body : List (Str × JVal)) (table : List (Str × Str)) :
    resolve_restaurant_id h qp req body table =
      pick_first_truthy [h, qp, extract_restaurant_id_helper req, phone_signal body table] := by
  simp only [resolve_restaurant_id, pick_first_truthy, pyOr, phone_signal]
  by_cases h1 : sTruthy h <;> by_cases h2 : sTruthy qp <;>
    by_cases h3 : sTruthy (extract_restaurant_id_helper req) <;>
      simp [h1, h2, h3]
  all_goals cases hp : extract_phone_number body <;> simp [h1, h2, h3]

/-! ### Claim C1 -/

/-- Claim C1 (code_bug evidence): a knowledge-base request whose
embedding+search stage takes 16 s (exceeding the 15 s timeout) gets an
HTTP-success tool response, but its result text is the generic
"I don't have information about that." — not the degraded
please-try-again message — because `vapi.py` passes the degraded message
positionally into the `category` parameter of `build_no_result`, where it
matches none of the four categories. -/
theorem C1_timeout_returns_generic_text :
    (vapi_knowledge_base env0 60 parse0 (some (str "rest-1")) none req1 [] [] 16
        ⟨[], 0⟩).outcome
      = .success ⟨[⟨str "tc1", str "I don't have information about that.", none⟩]⟩ ∧
    str "I don't have information about that." ≠ degraded_message := by
  exact ⟨by decide, by decide⟩

/-! ### Claim C2 -/

/-- Claim C2 (counterexample): clearing category "menu" for tenant "t"
deletes this tenant's "hours" entry whose query text contains ":menu:",
contradicting "leaves every hours entry of the same tenant untouched, for
all query strings". -/
theorem C2_clear_counterexample :
    clear_cache [(get_cache_key (str "t") (str "x:menu:y") (some (str "hours")), ([], 100))]
        (str "t") (some (str "menu")) = [] ∧
    get_cache_key (str "t") (str "x:menu:y") (some (str "hours"))
      = str "t:hours:x:menu:y" := by
  exact ⟨by decide, by decide⟩

/-- Claim C2 (amended): `clear(tenant, none)` removes exactly the entries
whose key begins with the tenant prefix; `clear(tenant, c)` removes exactly
the entries whose key begins with the tenant prefix AND contains `":c:"` as
a substring of the whole key; consequently `clear(tenant, "menu")` leaves
an "hours" entry of the same tenant untouched whenever its key does not
contain ":menu:". -/
theorem C2_clear_semantics :
    (∀ (cache : Cache) (rid : Str) (e : Str × (List Doc × Nat)),
      e ∈ clear_cache cache rid none ↔ e ∈ cache ∧ ¬ (rid ++ [':']) <+: e.1) ∧
    (∀ (cache : Cache) (rid c : Str) (e : Str × (List Doc × Nat)),
      e ∈ clear_cache cache rid (some c) ↔
        e ∈ cache ∧ ¬ ((rid ++ [':']) <+: e.1 ∧ ([':'] ++ c ++ [':']) <:+: e.1)) ∧
    (∀ (cache : Cache) (rid q : Str) (v : List Doc) (exp : Nat),
      (get_cache_key rid q (some (str "hours")), (v, exp)) ∈ cache →
      ¬ ([':'] ++ str "menu" ++ [':']) <:+: get_cache_key rid q (some (str "hours")) →
      (get_cache_key rid q (some (str "hours")), (v, exp)) ∈
        clear_cache cache rid (some (str "menu"))) := by
  refine ⟨?_, ?_, ?_⟩
  · intro cache rid e
    rw [clear_cache, List.mem_filter, Bool.not_eq_true', Bool.eq_false_iff]
    exact and_congr_right fun _ => not_congr (should_delete_none_iff rid e.1)
  · intro cache rid c e
    rw [clear_cache, List.mem_filter, Bool.not_eq_true', Bool.eq_false_iff]
    exact and_congr_right fun _ => not_congr (should_delete_some_iff rid c e.1)
  · intro cache rid q v exp hmem hninf
    rw [clear_cache, List.mem_filter]
    refine ⟨hmem, ?_⟩
    rw [Bool.not_eq_true', Bool.eq_false_iff]
    intro htrue
    exact hninf ((should_delete_some_iff _ _ _).mp htrue).2

/-- Witness for C2: a concrete "hours" entry of tenant "t" survives
`clear("t", "menu")`. -/
theorem C2_clear_semantics_witness :
    (get_cache_key (str "t") (str "open now") (some (str "hours")), ([], (100 : Nat))) ∈
      clear_cache [(get_cache_key (str "t") (str "open now") (some (str "hours")), ([], 100))]
        (str "t") (some (str "menu")) :=
  C2_clear_semantics.2.2
    [(get_cache_key (str "t") (str "open now") (some (str "hours")), ([], 100))]
    (str "t") (str "open now") [] 100 (by decide) (by decide)

/-! ### Claim C6 -/

/-- Claim C6 (counterexample): the all-spaces phone string " " and its
normalization "" do not resolve alike once the mapping table holds a key
"" — a state the repository's own `create_phone_mapping(" ", ...)`
produces, since it upserts the cleaned (empty) number. -/
theorem C6_normalize_counterexample :
    clean_phone (str " ") = str "" ∧
    create_phone_mapping [] (str " ") (str "t1") = [(str "", str "t1")] ∧
    get_restaurant_id_from_phone (create_phone_mapping [] (str " ") (str "t1")) (str " ")
      = some (str "t1") ∧
    get_restaurant_id_from_phone (create_phone_mapping [] (str " ") (str "t1"))
        (clean_phone (str " "))
      = none := by
  exact ⟨by decide, by decide, by decide, by decide⟩

/-- Claim C6 (amended): phone-based resolution is invariant under stripping
spaces, parentheses and hyphens for every pair of NON-EMPTY phone strings,
and `resolve(p) = resolve(normalize(p))` whenever the normalized form is
non-empty; only a non-empty string consisting entirely of strippable
characters (normalizing to "") escapes, as "" short-circuits to no-tenant. -/
theorem C6_normalize_invariance :
    (∀ (table : List (Str × Str)) (p q : Str),
      clean_phone p = clean_phone q → p ≠ [] → q ≠ [] →
      get_restaurant_id_from_phone table p = get_restaurant_id_from_phone table q) ∧
    (∀ (table : List (Str × Str)) (p : Str),
      clean_phone p ≠ [] →
      get_restaurant_id_from_phone table p
        = get_restaurant_id_from_phone table (clean_phone p)) := by
  constructor
  · intro table p q hpq hp hq
    have hp' : p.isEmpty = false := by cases p <;> simp_all
    have hq' : q.isEmpty = false := by cases q <;> simp_all
    simp [get_restaurant_id_from_phone, hp', hq', hpq]
  · intro table p hcp
    have hp : p ≠ [] := by
      intro he
      subst he
      exact hcp rfl
    have hp' : p.isEmpty = false := by cases p <;> simp_all
    have hcp' : (clean_phone p).isEmpty = false := by
      cases hc : clean_phone p <;> simp_all
    simp [get_restaurant_id_from_phone, hp', hcp', clean_phone_idem]

/-- Witness for C6: "+1 (930) 888-9330" and "+19308889330" resolve to the
same tenant. -/
theorem C6_normalize_invariance_witness :
    get_restaurant_id_from_phone [(str "+19308889330", str "t1")] (str "+1 (930) 888-9330")
      = get_restaurant_id_from_phone [(str "+19308889330", str "t1")] (str "+19308889330") ∧
    get_restaurant_id_from_phone [(str "+19308889330", str "t1")] (str "+1 (930) 888-9330")
      = some (str "t1") :=
  ⟨C6_normalize_invariance.1 [(str "+19308889330", str "t1")]
      (str "+1 (930) 888-9330") (str "+19308889330") (by decide) (by decide) (by decide),
   by decide⟩

/-! ### Claim C3 -/

/-- Claim C3 (counterexample): the colon-joined cache key is not injective
when tenant ids may contain ':'.  Tenant "t"'s menu entry for query
"x:all:q" shares its key with tenant "t:menu:x"'s uncategorized query "q",
so a request resolved to tenant "t:menu:x" is served tenant "t"'s cached
document (the store of `env0` finds nothing, so the returned document can
only have come from the other tenant's cache entry). -/
theorem C3_cross_tenant_counterexample :
    str "t" ≠ str "t:menu:x" ∧
    get_cache_key (str "t") (str "x:all:q") (some (str "menu"))
      = get_cache_key (str "t:menu:x") (str "q") none ∧
    (search_knowledge_base env0 60 (str "q") (str "t:menu:x") none 5
        ⟨[(get_cache_key (str "t") (str "x:all:q") (some (str "menu")), ([docA], 100))], 0⟩).results
      = [docA] := by
  exact ⟨by decide, by decide, by decide⟩

/-- Claim C3 (amended): for an IDENTICAL (category, query) pair the cache
key determines the tenant, so a lookup by tenant `b` can never hit an entry
stored for a different tenant `a` under the same category and query — it
misses and consults the store, which is called with `b` itself. -/
theorem C3_tenant_isolation :
    (∀ (a b q : Str) (c : Option Str),
      get_cache_key a q c = get_cache_key b q c → a = b) ∧
    (∀ (env : SearchEnv) (ttl : Nat) (a b q : Str) (c : Option Str)
      (lim : Nat) (v : List Doc) (exp t : Nat), a ≠ b →
      (search_knowledge_base env ttl q b c lim
          ⟨[(get_cache_key a q c, (v, exp))], t⟩).results
        = (env.store (env.embed q) b (if sTruthy c then c else none) lim).map row_to_doc ∧
      (search_knowledge_base env ttl q b c lim
          ⟨[(get_cache_key a q c, (v, exp))], t⟩).store_calls = 1) := by
  refine ⟨get_cache_key_inj_left, ?_⟩
  intro env ttl a b q c lim v exp t hab
  have hk : (get_cache_key a q c == get_cache_key b q c) = false := by
    rw [beq_eq_false_iff_ne]
    intro he
    exact hab (get_cache_key_inj_left a b q c he)
  constructor <;>
    simp [search_knowledge_base, get_cached_result, List.find?, hk]

/-- Witness for C3: tenant "t2"'s lookup misses tenant "t1"'s cached entry
for the same query and goes to the store. -/
theorem C3_tenant_isolation_witness :
    (search_knowledge_base env1 60 (str "pizza") (str "t2") none 5
        ⟨[(get_cache_key (str "t1") (str "pizza") none, ([docA], 100))], 0⟩).store_calls = 1 :=
  (C3_tenant_isolation.2 env1 60 (str "t1") (str "t2") (str "pizza") none 5 [docA] 100 0
    (by decide)).2

/-! ### Claim C4 -/

/-- Claim C4 (counterexample): with no header, a "restaurant_id" URL query
parameter "Q" and a metadata tenant id "M", the code resolves "Q" while the
claimed three-signal priority chain resolves "M". -/
theorem C4_priority_counterexample :
    resolve_restaurant_id none (some (str "Q")) req_meta [] [] = some (str "Q") ∧
    resolve_spec_three none (extract_restaurant_id_helper req_meta) (phone_signal [] [])
      = some (str "M") ∧
    some (str "Q") ≠ some (str "M") := by
  exact ⟨by decide, by decide, by decide⟩

/-- Claim C4 (amended): a non-empty explicit header always wins verbatim;
among the FOUR identity channels the first non-empty one wins in the order
header, URL query parameter "restaurant_id", metadata tenant id (stripped),
phone-number lookup. -/
theorem C4_priority_order :
    ∀ (h qp : Option Str) (req : VapiRequest) (body : List (Str × JVal))
      (table : List (Str × Str)),
      (sTruthy h = true → resolve_restaurant_id h qp req body table = h) ∧
      resolve_restaurant_id h qp req body table =
        pick_first_truthy [h, qp, extract_restaurant_id_helper req, phone_signal body table] := by
  intro h qp req body table
  refine ⟨fun hh => ?_, resolve_eq_pick h qp req body table⟩
  rw [resolve_eq_pick h qp req body table]
  simp [pick_first_truthy, hh]

/-- Witness for C4: a non-empty header "H" wins over query parameter,
metadata and phone mapping. -/
theorem C4_priority_order_witness :
    resolve_restaurant_id (some (str "H")) (some (str "Q")) req_meta
      [(str "message", .obj [(str "phoneNumber", .str (str "+19308889330"))])]
      [(str "+19308889330", str "tP")] = some (str "H") :=
  (C4_priority_order (some (str "H")) (some (str "Q")) req_meta
    [(str "message", .obj [(str "phoneNumber", .str (str "+19308889330"))])]
    [(str "+19308889330", str "tP")]).1 (by decide)

/-! ### Claim C10 -/

/-- Claim C10: with no (or an empty) tenant header, a non-empty
"restaurant_id" URL query parameter resolves the tenant, taking priority
over both the body-metadata tenant id and the phone-number lookup. -/
theorem C10_query_param_channel :
    ∀ (h qp : Option Str) (req : VapiRequest) (body : List (Str × JVal))
      (table : List (Str × Str)),
      (h = none ∨ h = some []) → sTruthy qp = true →
      resolve_restaurant_id h qp req body table = qp := by
  intro h qp req body table hh hqp
  rw [resolve_eq_pick h qp req body table]
  have hh' : sTruthy h = false := by
    rcases hh with rfl | rfl <;> rfl
  simp [pick_first_truthy, hh', hqp]

/-- Witness for C10: the query parameter "Q" beats metadata "M" and a
matching phone mapping. -/
theorem C10_query_param_channel_witness :
    resolve_restaurant_id none (some (str "Q")) req_meta
      [(str "message", .obj [(str "phoneNumber", .str (str "+19308889330"))])]
      [(str "+19308889330", str "tP")] = some (str "Q") :=
  C10_query_param_channel none (some (str "Q")) req_meta
    [(str "message", .obj [(str "phoneNumber", .str (str "+19308889330"))])]
    [(str "+19308889330", str "tP")] (Or.inl rfl) (by decide)

/-! ### Claim C5 -/

/-- Claim C5: a body with no extractable query text fails with the
"Missing query parameter" 422 before tenant resolution is ever consulted
(the failure holds for EVERY header, query parameter, metadata and phone
table), and a body with truthy query text but no tool-call id fails with
the "Missing toolCallId" 422. -/
theorem C5_malformed_request_rejection :
    ∀ (env : SearchEnv) (ttl : Nat) (jsonParse : Str → Option JVal)
      (h qp : Option Str) (req : VapiRequest) (body : List (Str × JVal))
      (table : List (Str × Str)) (secs : Nat) (st : SearchState),
      (extract_query jsonParse req = none →
        (vapi_knowledge_base env ttl jsonParse h qp req body table secs st).outcome
          = .clientError 422 (str "Missing query parameter")) ∧
      (jOTruthy (extract_query jsonParse req) = true →
        extract_tool_call_id req = none →
        (vapi_knowledge_base env ttl jsonParse h qp req body table secs st).outcome
          = .clientError 422 (str "Missing toolCallId")) := by
  intro env ttl jsonParse h qp req body table secs st
  constructor
  · intro hq
    simp [vapi_knowledge_base, hq, jOTruthy]
  · intro hq hid
    simp [vapi_knowledge_base, hq, hid, sTruthy]

/-- Witness for C5: a body with nothing in it is rejected for the missing
query, and a body with only a top-level query is rejected for the missing
toolCallId. -/
theorem C5_malformed_request_rejection_witness :
    (vapi_knowledge_base env0 60 parse0 none none req_noquery [] [] 0 ⟨[], 0⟩).outcome
      = .clientError 422 (str "Missing query parameter") ∧
    (vapi_knowledge_base env0 60 parse0 none none req_noid [] [] 0 ⟨[], 0⟩).outcome
      = .clientError 422 (str "Missing toolCallId") :=
  ⟨(C5_malformed_request_rejection env0 60 parse0 none none req_noquery [] [] 0 ⟨[], 0⟩).1
      (by decide),
   (C5_malformed_request_rejection env0 60 parse0 none none req_noid [] [] 0 ⟨[], 0⟩).2
      (by decide) (by decide)⟩

/-! ### Claim C7 -/

/-- Claim C7: starting from an empty cache, a first lookup consults the
embedding provider and the store exactly once; a second identical
(tenant, category, query) lookup at any time strictly before insertion
time + TTL returns the identical results with zero collaborator calls and
leaves the cache unchanged (no expiry refresh on access); once insertion
time + TTL is reached, the lookup consults the store again.  The TTL
default of `config.py` is 60 seconds. -/
theorem C7_cache_idempotence :
    (∀ (env : SearchEnv) (ttl : Nat) (q rid : Str) (c : Option Str)
      (lim t1 t2 : Nat) (o1 : SearchOut),
      search_knowledge_base env ttl q rid c lim ⟨[], t1⟩ = o1 →
      o1.embed_calls = 1 ∧ o1.store_calls = 1 ∧
      (t2 < t1 + ttl →
        search_knowledge_base env ttl q rid c lim ⟨o1.state.cache, t2⟩
          = ⟨o1.results, ⟨o1.state.cache, t2⟩, 0, 0⟩) ∧
      (t1 + ttl ≤ t2 →
        (search_knowledge_base env ttl q rid c lim ⟨o1.state.cache, t2⟩).store_calls = 1 ∧
        (search_knowledge_base env ttl q rid c lim ⟨o1.state.cache, t2⟩).embed_calls = 1)) ∧
    ({} : Settings).cache_ttl_seconds = 60 := by
  refine ⟨?_, rfl⟩
  intro env ttl q rid c lim t1 t2 o1 ho
  subst ho
  refine ⟨?_, ?_, ?_, ?_⟩
  · simp [search_knowledge_base, get_cached_result, List.find?]
  · simp [search_knowledge_base, get_cached_result, List.find?]
  · intro ht
    simp [search_knowledge_base, get_cached_result, set_cached_result, List.find?, ht]
  · intro ht
    have ht' : ¬ t2 < t1 + ttl := not_lt.mpr ht
    constructor <;>
      simp [search_knowledge_base, get_cached_result, set_cached_result, List.find?, ht']

/-- Witness for C7: with a store that finds one document, the second lookup
at t = 30 s is served from cache with no store call, and the lookup at
t = 60 s goes back to the store. -/
theorem C7_cache_idempotence_witness :
    (search_knowledge_base env1 60 (str "pizza") (str "t1") none 5
        ⟨(search_knowledge_base env1 60 (str "pizza") (str "t1") none 5 ⟨[], 0⟩).state.cache, 30⟩)
      = ⟨(search_knowledge_base env1 60 (str "pizza") (str "t1") none 5 ⟨[], 0⟩).results,
         ⟨(search_knowledge_base env1 60 (str "pizza") (str "t1") none 5 ⟨[], 0⟩).state.cache, 30⟩,
         0, 0⟩ ∧
    (search_knowledge_base env1 60 (str "pizza") (str "t1") none 5
        ⟨(search_knowledge_base env1 60 (str "pizza") (str "t1") none 5 ⟨[], 0⟩).state.cache, 60⟩).store_calls
      = 1 :=
  ⟨(C7_cache_idempotence.1 env1 60 (str "pizza") (str "t1") none 5 0 30 _ rfl).2.2.1
      (by decide),
   ((C7_cache_idempotence.1 env1 60 (str "pizza") (str "t1") none 5 0 60 _ rfl).2.2.2
      (by decide)).1⟩

/-! ### Claim C8 -/

/-- Claim C8 (counterexample): for a document whose metadata name is
present but empty ("") and whose content is " a - b", the code's name is
"a" — the empty metadata name is skipped (falsy, not merely absent) and
the content segment " a" is stripped — while the claim's literal rule
yields the present metadata name "". -/
theorem C8_name_counterexample :
    extract_name_from_document doc_c8 = .str (str "a") ∧
    claim_name doc_c8 = .str (str "") ∧
    extract_name_from_document doc_c8 ≠ claim_name doc_c8 := by
  exact ⟨by decide, by decide, by decide⟩

/-- Claim C8 (amended): for a non-empty result list the tool response's
text is the contents of the first min(3, n) results joined by a blank
line, and the structured items are the same first min(3, n) results
projected by the fixed per-category mapping, where the name is
metadata.name if truthy, else metadata.title if truthy, else the first
" - "-separated segment of the content stripped of surrounding
whitespace. -/
theorem C8_response_shape :
    ∀ (env : SearchEnv) (ttl : Nat) (jsonParse : Str → Option JVal)
      (h qp : Option Str) (req : VapiRequest) (body : List (Str × JVal))
      (table : List (Str × Str)) (secs : Nat) (st : SearchState) (rid : Str)
      (out : SearchOut),
      jOTruthy (extract_query jsonParse req) = true →
      sTruthy (extract_tool_call_id req) = true →
      resolve_restaurant_id h qp req body table = some rid →
      secs ≤ 15 →
      search_knowledge_base env ttl (pyStr ((extract_query jsonParse req).getD .null)) rid
        (map_tool_to_category (extract_tool_name req)) 5 st = out →
      out.results ≠ [] →
      (vapi_knowledge_base env ttl jsonParse h qp req body table secs st).outcome
        = .success ⟨[⟨(extract_tool_call_id req).getD [],
            List.intercalate (str "\n\n") ((out.results.take 3).map (fun d => d.content)),
            some ((out.results.take 3).map
              (claim_item (map_tool_to_category (extract_tool_name req))))⟩]⟩ := by
  intro env ttl jsonParse h qp req body table secs st rid out hq htc hr hs hout hne
  subst hout
  have hns : ¬ 15 < secs := not_lt.mpr hs
  have hitems :
      List.map (structured_item (map_tool_to_category (extract_tool_name req)))
        = List.map (claim_item (map_tool_to_category (extract_tool_name req))) := by
    exact congrArg List.map
      (funext (structured_item_eq_claim_item (map_tool_to_category (extract_tool_name req))))
  simp [vapi_knowledge_base, hq, htc, hr, hns, hne, build_tool_result_with_items,
    build_structured_items, hitems]

/-- Witness for C8: a concrete menu query against a store returning one
document yields the document content as text and the menu projection as
the single structured item. -/
theorem C8_response_shape_witness :
    (vapi_knowledge_base env1 60 parse0 (some (str "t")) none req1 [] [] 1 ⟨[], 0⟩).outcome
      = .success ⟨[⟨str "tc1", str "Margherita - tomato, mozzarella",
          some [[(str "type", .str (str "menu_item")),
                 (str "name", .str (str "Margherita")),
                 (str "price", .null),
                 (str "description", .null),
                 (str "score", .num 1)]]⟩]⟩ :=
  (C8_response_shape env1 60 parse0 (some (str "t")) none req1 [] [] 1 ⟨[], 0⟩ (str "t") _
    (by decide) (by decide) (by decide) (by decide) rfl (by decide)).trans (by decide)

/-! ### Claim C9 -/

/-- Claim C9: an empty result set yields the canned sentence for the
request's category — the four categories and the no-category fallback all
have pairwise distinct sentences — and a truthy custom override message
always replaces the category default. -/
theorem C9_empty_result_messages :
    (∀ (env : SearchEnv) (ttl : Nat) (jsonParse : Str → Option JVal)
      (h qp : Option Str) (req : VapiRequest) (body : List (Str × JVal))
      (table : List (Str × Str)) (secs : Nat) (st : SearchState) (rid : Str)
      (out : SearchOut),
      jOTruthy (extract_query jsonParse req) = true →
      sTruthy (extract_tool_call_id req) = true →
      resolve_restaurant_id h qp req body table = some rid →
      secs ≤ 15 →
      search_knowledge_base env ttl (pyStr ((extract_query jsonParse req).getD .null)) rid
        (map_tool_to_category (extract_tool_name req)) 5 st = out →
      out.results = [] →
      (vapi_knowledge_base env ttl jsonParse h qp req body table secs st).outcome
        = .success ⟨[⟨(extract_tool_call_id req).getD [],
            default_no_result_message (map_tool_to_category (extract_tool_name req)),
            none⟩]⟩) ∧
    List.Pairwise (fun a b => a ≠ b)
      [default_no_result_message (some (str "menu")),
       default_no_result_message (some (str "modifiers")),
       default_no_result_message (some (str "hours")),
       default_no_result_message (some (str "zones")),
       default_no_result_message none] ∧
    (∀ (tc : Str) (category : Option Str) (m : Str), m ≠ [] →
      build_no_result tc category (some m) = ⟨[⟨tc, m, none⟩]⟩) := by
  refine ⟨?_, by decide, ?_⟩
  · intro env ttl jsonParse h qp req body table secs st rid out hq htc hr hs hout hempty
    subst hout
    have hns : ¬ 15 < secs := not_lt.mpr hs
    simp [vapi_knowledge_base, hq, htc, hr, hns, hempty, build_no_result_default]
  · intro tc category m hm
    have hmt : sTruthy (some m) = true := by
      cases m with
      | nil => exact absurd rfl hm
      | cons c cs => rfl
    simp [build_no_result, hmt]

/-- Witness for C9: the zones scenario — tenant "T", query "what's your
delivery area", zero documents — returns exactly the canned zones message,
and a custom override "Custom" replaces the default. -/
theorem C9_empty_result_messages_witness :
    (vapi_knowledge_base env0 60 parse0 (some (str "T")) none req_zones [] [] 1 ⟨[], 0⟩).outcome
      = .success ⟨[⟨str "tc9",
          str "I don't have delivery zone information available right now.", none⟩]⟩ ∧
    build_no_result (str "tc9") (some (str "zones")) (some (str "Custom"))
      = ⟨[⟨str "tc9", str "Custom", none⟩]⟩ :=
  ⟨(C9_empty_result_messages.1 env0 60 parse0 (some (str "T")) none req_zones [] [] 1
      ⟨[], 0⟩ (str "T") _ (by decide) (by decide) (by decide) (by decide) rfl
      (by decide)).trans (by decide),
   C9_empty_result_messages.2.2 (str "tc9") (some (str "zones")) (str "Custom") (by decide)⟩

end VoiceAssistant
